import Mathlib

/-
Verification of the fpl-tactix transfer-optimization engine.

The definitions below are a shallow embedding of `src/brain/optimizer.py`:
the data model (`Player`, `UserState`, `SolverResult`), the MILP model that
`solve_fpl_problem` builds (decision variables, constraints, objective), and
the result-extraction code that runs after the external solver returns.

Modelling choices:
  * Money and projected points are `ℚ` (the Python code uses floats holding
    decimal literals; all reasoning here is exact).
  * A solved variable assignment is a record of `ℤ → Bool` maps: Python's
    `_val` thresholds `varValue > 0.5` into a boolean, so the booleans here
    are exactly the post-`_val` values; a variable whose `varValue` is
    `None` reads as `false`, matching `_val`.
  * Linear sums `lpSum(c_i * x_i)` become list sums over the player pool;
    sums of bare binaries become `List.countP`.  The Python code keys its
    variable dicts by player id, so pools are assumed deduplicated by id
    (spec section 4.1: "deduplicated by identity").
  * The external CBC solver is not modelled: theorems quantify over the
    assignments it could return, constrained by `feasible` where a claim
    assumes the model's constraints hold.

A second family of definitions (`SPlayer`, `specObjective`, ...) models,
from the specification, parts of the optimizer module that `advisor.py` and
`data_ingestion.py` import (`OptimizationResult`, `SquadState`,
`TransferSuggestion`, availability statuses, per-gameweek projections) but
which is not present under `src/`.  Those carry doc comments starting with
"Modelled from the spec:".
-/

/-- `Player` dataclass, `optimizer.py` lines 31-43. -/
structure Player where
  id : ℤ
  name : String
  team : String
  position : String
  now_cost : ℚ
  selling_price : ℚ
  xP : ℚ
  ownership_percent : ℚ
  in_current_squad : Bool := false
  is_current_starter : Bool := false
deriving DecidableEq

/-- `UserState` dataclass, `optimizer.py` lines 45-49.  The Python
`current_squad_ids` is a set of ids; only membership is ever used, so a
list of ids models it. -/
structure UserState where
  bank : ℚ
  free_transfers : ℤ
  current_squad_ids : List ℤ

/-- Position requirements, `optimizer.py` line 53. -/
def POS_LIMITS : List (String × ℕ) := [("GK", 2), ("DEF", 5), ("MID", 5), ("FWD", 3)]

/-- `optimizer.py` line 54. -/
def STARTING_MIN : List (String × ℕ) := [("GK", 1), ("DEF", 3), ("MID", 2), ("FWD", 1)]

/-- `optimizer.py` line 55. -/
def STARTING_MAX : List (String × ℕ) := [("GK", 1), ("DEF", 5), ("MID", 5), ("FWD", 3)]

/-- `optimizer.py` line 56. -/
def MAX_PER_CLUB : ℕ := 3

/-- `optimizer.py` line 57. -/
def SQUAD_SIZE : ℕ := 15

/-- `optimizer.py` line 58. -/
def STARTING_XI : ℕ := 11

/-- `optimizer.py` line 59 (`HIT_COST = 4`). -/
def HIT_COST : ℚ := 4

/-- `optimizer.py` line 60 (`BENCH_WEIGHT = 0.1`). -/
def BENCH_WEIGHT : ℚ := 1 / 10

/-- `optimizer.py` line 61 (`INERTIA_THRESHOLD = 2.0`). -/
def INERTIA_THRESHOLD : ℚ := 2

/-- A solved assignment of the binary decision variables of
`solve_fpl_problem` (lines 180-197), already thresholded through `_val`
(lines 365-367): `squad i` is `_val(squad[i])`, and so on.  `hits` is the
auxiliary integer variable (line 197, `lowBound=0`, hence `ℕ`). -/
structure Asg where
  squad : ℤ → Bool
  starter : ℤ → Bool
  captain : ℤ → Bool
  tout : ℤ → Bool
  tin : ℤ → Bool
  hits : ℕ

/-- A binary variable's contribution to a linear expression. -/
def bq (b : Bool) : ℚ := if b then 1 else 0

/-- `num_transfers = lpSum(transfer_out[i] for i in transfer_out)` (line
281); `transfer_out` has one key per currently-owned pool id (lines
185-189). -/
def numTransfersOf (ps : List Player) (u : UserState) (a : Asg) : ℕ :=
  ps.countP fun p => decide (p.id ∈ u.current_squad_ids) && a.tout p.id

/-- `selling_revenue` (lines 291-293). -/
def sellingRevenueOf (ps : List Player) (u : UserState) (a : Asg) : ℚ :=
  ((ps.filter fun p => decide (p.id ∈ u.current_squad_ids)).map
    fun p => p.selling_price * bq (a.tout p.id)).sum

/-- `buying_cost` (lines 294-296). -/
def buyingCostOf (ps : List Player) (u : UserState) (a : Asg) : ℚ :=
  ((ps.filter fun p => !decide (p.id ∈ u.current_squad_ids)).map
    fun p => p.now_cost * bq (a.tin p.id)).sum

/-- The constraint set built by `solve_fpl_problem` (lines 220-297), in
source order: squad size, exact position counts, per-club cap, starting-XI
size, starters within squad, formation bounds, single starting GK, exactly
one captain who must start, transfer linkage for owned and non-owned
players, the hit linearization, the transfer cap, and the budget. -/
def feasible (ps : List Player) (u : UserState) (max_transfers : ℕ) (a : Asg) : Prop :=
  (ps.countP fun p => a.squad p.id) = SQUAD_SIZE
  ∧ (∀ pc ∈ POS_LIMITS, (ps.countP fun p => p.position == pc.1 && a.squad p.id) = pc.2)
  ∧ (∀ club ∈ ps.map Player.team,
      (ps.countP fun p => p.team == club && a.squad p.id) ≤ MAX_PER_CLUB)
  ∧ (ps.countP fun p => a.starter p.id) = STARTING_XI
  ∧ (∀ p ∈ ps, a.starter p.id = true → a.squad p.id = true)
  ∧ (∀ pc ∈ STARTING_MIN, pc.2 ≤ ps.countP fun p => p.position == pc.1 && a.starter p.id)
  ∧ (∀ pc ∈ STARTING_MAX, (ps.countP fun p => p.position == pc.1 && a.starter p.id) ≤ pc.2)
  ∧ (ps.countP fun p => p.position == "GK" && a.starter p.id) = 1
  ∧ (ps.countP fun p => a.captain p.id) = 1
  ∧ (∀ p ∈ ps, a.captain p.id = true → a.starter p.id = true)
  ∧ (∀ i ∈ u.current_squad_ids, a.squad i = !a.tout i)
  ∧ (∀ p ∈ ps, p.id ∉ u.current_squad_ids → a.squad p.id = a.tin p.id)
  ∧ ((numTransfersOf ps u a : ℤ) - u.free_transfers ≤ (a.hits : ℤ))
  ∧ ((0 : ℤ) ≤ (a.hits : ℤ))
  ∧ (numTransfersOf ps u a ≤ max_transfers)
  ∧ (buyingCostOf ps u a ≤ u.bank + sellingRevenueOf ps u a)

/-- The objective of `solve_fpl_problem` (lines 202-218): per player, full
`xP` if a starter, `BENCH_WEIGHT * xP` on the squad-minus-starter
indicator, an extra full `xP` if captain; minus `HIT_COST * hits`. -/
def objective (ps : List Player) (a : Asg) : ℚ :=
  (ps.map fun p =>
      p.xP * bq (a.starter p.id)
      + p.xP * BENCH_WEIGHT * (bq (a.squad p.id) - bq (a.starter p.id))
      + p.xP * bq (a.captain p.id)).sum
  - HIT_COST * (a.hits : ℚ)

instance (ps : List Player) (u : UserState) (m : ℕ) (a : Asg) :
    Decidable (feasible ps u m a) := by
  unfold feasible
  infer_instance

/-- An objective value attained by some assignment satisfying the model's
constraints under the given transfer cap. -/
def FeasibleValue (ps : List Player) (u : UserState) (m : ℕ) (v : ℚ) : Prop :=
  ∃ a : Asg, feasible ps u m a ∧ objective ps a = v

/-- The optimal objective value of the built model under transfer cap `m`:
attained, and an upper bound on every feasible assignment's objective. -/
def IsOptimalValue (ps : List Player) (u : UserState) (m : ℕ) (v : ℚ) : Prop :=
  FeasibleValue ps u m v ∧ ∀ a : Asg, feasible ps u m a → objective ps a ≤ v

/-- The mock player pool of `build_mock_data` (`optimizer.py` lines 64-127):
fields are id, name, team, position, now_cost, selling_price, xP,
ownership_percent, in_current_squad, is_current_starter. -/
def mockPlayers : List Player :=
  [ ⟨1, "Raya", "ARS", "GK", 5.5, 5.5, 4.8, 28.0, true, true⟩
  , ⟨2, "Flekken", "BRE", "GK", 4.5, 4.5, 2.1, 5.0, true, false⟩
  , ⟨3, "Gabriel", "ARS", "DEF", 6.2, 6.2, 5.5, 35.0, true, true⟩
  , ⟨4, "Saliba", "ARS", "DEF", 6.0, 6.0, 5.3, 32.0, true, true⟩
  , ⟨5, "Alexander-Arnold", "LIV", "DEF", 7.2, 7.0, 6.2, 22.0, true, true⟩
  , ⟨6, "Hall", "NEW", "DEF", 4.8, 4.8, 3.5, 8.0, true, true⟩
  , ⟨7, "Mitchell", "CRY", "DEF", 4.5, 4.3, 2.0, 6.0, true, false⟩
  , ⟨8, "Salah", "LIV", "MID", 13.0, 12.8, 9.5, 62.0, true, true⟩
  , ⟨9, "Saka", "ARS", "MID", 10.0, 10.0, 7.0, 38.0, true, true⟩
  , ⟨10, "Neto", "MCI", "MID", 5.8, 5.6, 2.1, 7.0, true, true⟩
  , ⟨11, "Gordon", "NEW", "MID", 7.5, 7.3, 5.8, 18.0, true, true⟩
  , ⟨12, "Smith Rowe", "FUL", "MID", 5.5, 5.5, 3.2, 4.0, true, false⟩
  , ⟨13, "Haaland", "MCI", "FWD", 14.5, 14.5, 10.2, 58.0, true, true⟩
  , ⟨14, "Solanke", "TOT", "FWD", 7.5, 7.3, 3.2, 12.0, true, true⟩
  , ⟨15, "Wissa", "BRE", "FWD", 6.0, 5.8, 4.1, 9.0, true, false⟩
  , ⟨16, "Pickford", "EVE", "GK", 5.0, 5.0, 4.0, 10.0, false, false⟩
  , ⟨17, "Henderson", "CRY", "GK", 4.5, 4.5, 3.0, 3.0, false, false⟩
  , ⟨18, "Van Dijk", "LIV", "DEF", 6.5, 6.5, 5.8, 25.0, false, false⟩
  , ⟨19, "Gvardiol", "MCI", "DEF", 6.0, 6.0, 4.5, 15.0, false, false⟩
  , ⟨20, "Lewis", "MCI", "DEF", 4.2, 4.2, 1.5, 2.0, false, false⟩
  , ⟨21, "Ait-Nouri", "WOL", "DEF", 5.2, 5.2, 4.8, 11.0, false, false⟩
  , ⟨22, "Palmer", "CHE", "MID", 10.5, 10.5, 8.2, 55.0, false, false⟩
  , ⟨23, "Mbeumo", "BRE", "MID", 7.5, 7.5, 6.5, 20.0, false, false⟩
  , ⟨24, "Rogers", "AVL", "MID", 5.5, 5.5, 5.0, 7.5, false, false⟩
  , ⟨25, "Elanga", "NFO", "MID", 5.2, 5.2, 4.2, 6.0, false, false⟩
  , ⟨26, "McAtee", "MCI", "MID", 4.5, 4.5, 1.0, 1.0, false, false⟩
  , ⟨27, "Watkins", "AVL", "FWD", 9.0, 9.0, 7.8, 9.5, false, false⟩
  , ⟨28, "Isak", "NEW", "FWD", 8.8, 8.8, 7.5, 25.0, false, false⟩
  , ⟨29, "Cunha", "WOL", "FWD", 7.0, 7.0, 6.0, 14.0, false, false⟩
  , ⟨30, "Archer", "SOU", "FWD", 4.5, 4.5, 1.2, 1.5, false, false⟩ ]

/-- The mock user state of `build_mock_data` (lines 119-125): bank 1.5, one
free transfer, current squad = players flagged `in_current_squad`. -/
def mockUser : UserState :=
  { bank := 1.5
  , free_transfers := 1
  , current_squad_ids := [1, 2, 3, 4, 5, 6, 7, 8, 9, 10, 11, 12, 13, 14, 15] }

/-- `SolverResult` dataclass (`optimizer.py` lines 135-151). -/
structure SolverResult where
  status : String
  new_squad : List Player
  starters : List Player
  bench : List Player
  captain : Player
  transfers_in : List Player
  transfers_out : List Player
  total_xp : ℚ
  hit_cost : ℚ
  net_xp : ℚ
  current_team_xp : ℚ
  net_improvement : ℚ
  budget_used : ℚ
  budget_available : ℚ
  should_roll : Bool

/-- `new_squad = [pid[i] for i in all_ids if _val(squad[i])]` (line 306);
filtering the pool keeps input-pool order, matching the id-indexed dict. -/
def squadOf (ps : List Player) (a : Asg) : List Player :=
  ps.filter fun p => a.squad p.id

/-- `starters = [pid[i] for i in all_ids if _val(starter[i])]` (line 307). -/
def startersOf (ps : List Player) (a : Asg) : List Player :=
  ps.filter fun p => a.starter p.id

/-- `bench = [p for p in new_squad if p not in starters]` (line 308). -/
def benchOf (ps : List Player) (a : Asg) : List Player :=
  (squadOf ps a).filter fun p => !decide (p ∈ startersOf ps a)

/-- The players whose captain variable reads true, in pool order. -/
def capListOf (ps : List Player) (a : Asg) : List Player :=
  ps.filter fun p => a.captain p.id

/-- `cap = next((pid[i] for i in all_ids if _val(captain[i])), starters[0])`
(line 309).  Python evaluates the default `starters[0]` eagerly, so the
whole expression raises `IndexError` whenever `starters` is empty — even if
some captain variable is set.  `none` models that exception. -/
def capOf (ps : List Player) (a : Asg) : Option Player :=
  match startersOf ps a with
  | [] => none
  | s0 :: _ => some ((capListOf ps a).head?.getD s0)

/-- `t_out = [pid[i] for i in transfer_out if _val(transfer_out[i])]`
(line 310); `transfer_out` is keyed by the currently-owned pool ids. -/
def toutOf (ps : List Player) (u : UserState) (a : Asg) : List Player :=
  ps.filter fun p => decide (p.id ∈ u.current_squad_ids) && a.tout p.id

/-- `t_in = [pid[i] for i in transfer_in if _val(transfer_in[i])]`
(line 311). -/
def tinOf (ps : List Player) (u : UserState) (a : Asg) : List Player :=
  ps.filter fun p => !decide (p.id ∈ u.current_squad_ids) && a.tin p.id

/-- `starter_xp = sum(p.xP for p in starters)` (line 314). -/
def starterXpOf (ps : List Player) (a : Asg) : ℚ :=
  ((startersOf ps a).map Player.xP).sum

/-- `bench_xp = sum(p.xP * BENCH_WEIGHT for p in bench)` (line 315). -/
def benchXpOf (ps : List Player) (a : Asg) : ℚ :=
  ((benchOf ps a).map fun p => p.xP * BENCH_WEIGHT).sum

/-- `total_xp = starter_xp + bench_xp + captain_xp` (lines 316-317), given
the extracted captain. -/
def totalXpOf (ps : List Player) (a : Asg) (cap : Player) : ℚ :=
  starterXpOf ps a + benchXpOf ps a + cap.xP

/-- `num_hits = max(0, len(t_out) - user.free_transfers)` (line 319). -/
def numHitsOf (ps : List Player) (u : UserState) (a : Asg) : ℤ :=
  max 0 (((toutOf ps u a).length : ℤ) - u.free_transfers)

/-- `hit_cost = num_hits * HIT_COST` (line 320). -/
def hitCostOf (ps : List Player) (u : UserState) (a : Asg) : ℚ :=
  (numHitsOf ps u a : ℚ) * HIT_COST

/-- `net_xp = total_xp - hit_cost` (line 321). -/
def netXpOf (ps : List Player) (u : UserState) (a : Asg) (cap : Player) : ℚ :=
  totalXpOf ps a cap - hitCostOf ps u a

/-- Python's `max(iterable, key=...)`: returns the first element attaining
the maximal key, mirroring line 327. -/
def pyMaxByXP : List Player → Option Player
  | [] => none
  | x :: xs => some (xs.foldl (fun best p => if best.xP < p.xP then p else best) x)

/-- `current_xp` of the unchanged team (lines 324-332): current starters at
full weight, current bench at `BENCH_WEIGHT`, plus the best current
starter's xP as the assumed captain (0 if there are no current starters). -/
def currentXpOf (ps : List Player) : ℚ :=
  ((ps.filter fun p => p.is_current_starter).map Player.xP).sum
  + ((ps.filter fun p => p.in_current_squad && !p.is_current_starter).map
      fun p => p.xP * BENCH_WEIGHT).sum
  + ((pyMaxByXP (ps.filter fun p => p.is_current_starter)).map Player.xP).getD 0

/-- `net_improvement = net_xp - current_xp` (line 334). -/
def netImprovementOf (ps : List Player) (u : UserState) (a : Asg) (cap : Player) : ℚ :=
  netXpOf ps u a cap - currentXpOf ps

/-- `should_roll = net_improvement < INERTIA_THRESHOLD and len(t_out) > 0`
(line 335). -/
def shouldRollOf (ps : List Player) (u : UserState) (a : Asg) (cap : Player) : Bool :=
  decide (netImprovementOf ps u a cap < INERTIA_THRESHOLD)
    && decide (0 < (toutOf ps u a).length)

/-- `budget_available = user.bank + sum(p.selling_price for p in t_out)`
(line 338). -/
def budgetAvailableOf (ps : List Player) (u : UserState) (a : Asg) : ℚ :=
  u.bank + ((toutOf ps u a).map Player.selling_price).sum

/-- `budget_used = sum(p.now_cost for p in t_in)` (line 339). -/
def budgetUsedOf (ps : List Player) (u : UserState) (a : Asg) : ℚ :=
  ((tinOf ps u a).map Player.now_cost).sum

/-- Round half to even at one decimal place, modelling Python's
`round(x, 1)` (lines 354-360) under exact decimal arithmetic. -/
def roundTenth (q : ℚ) : ℚ :=
  ((let f : ℤ := ⌊10 * q⌋
    let r : ℚ := 10 * q - f
    if r < 1 / 2 then f
    else if 1 / 2 < r then f + 1
    else if f % 2 = 0 then f else f + 1 : ℤ) : ℚ) / 10

/-- The `SolverResult` literal returned at lines 346-362, given the
extracted captain and the solver's status string. -/
def buildResult (ps : List Player) (u : UserState) (a : Asg) (cap : Player)
    (status : String) : SolverResult :=
  { status := status
  , new_squad := squadOf ps a
  , starters := startersOf ps a
  , bench := benchOf ps a
  , captain := cap
  , transfers_in := tinOf ps u a
  , transfers_out := toutOf ps u a
  , total_xp := roundTenth (totalXpOf ps a cap)
  , hit_cost := hitCostOf ps u a
  , net_xp := roundTenth (netXpOf ps u a cap)
  , current_team_xp := roundTenth (currentXpOf ps)
  , net_improvement := roundTenth (netImprovementOf ps u a cap)
  , budget_used := roundTenth (budgetUsedOf ps u a)
  , budget_available := roundTenth (budgetAvailableOf ps u a)
  , should_roll := shouldRollOf ps u a cap }

/-- The result-extraction phase of `solve_fpl_problem` (lines 303-362),
applied to a solved variable assignment.  `none` models the `IndexError`
raised by `starters[0]` at line 309 when no starter variable reads true. -/
def extractResult (ps : List Player) (u : UserState) (a : Asg)
    (status : String) : Option SolverResult :=
  match capOf ps a with
  | none => none
  | some cap => some (buildResult ps u a cap status)

/-- Solver status string for an optimally solved model. -/
def statusOptimal : String := "Optimal"

/-- Solver status string for an infeasible model. -/
def statusInfeasible : String := "Infeasible"

/-- The assignment read back when the solver assigns no variable values
(every `varValue` is `None`, so `_val` is false everywhere), as happens
when the built model is infeasible. -/
def unsetAsg : Asg :=
  { squad := fun _ => false
  , starter := fun _ => false
  , captain := fun _ => false
  , tout := fun _ => false
  , tin := fun _ => false
  , hits := 0 }

/-- Modelled from the spec: the `Player` type of the optimizer module that
`advisor.py` and `data_ingestion.py` import, which is not present under
`src/`.  Fields follow the constructor call in
`data_ingestion.build_player_pool` (lines 211-226) and spec section 3:
per-gameweek projections are a finite mapping (association list, absent
gameweeks project 0), `status` is the provider's availability code
("a" available, "d" doubtful, "i" injured, "u" unavailable, "s" suspended,
"n" not in squad). -/
structure SPlayer where
  id : ℤ
  web_name : String
  team_id : ℤ
  position : ℕ
  now_cost : ℚ
  selling_price : ℚ
  ownership_pct : ℚ := 0
  form : ℚ := 0
  xp_by_gw : List (ℤ × ℚ) := []
  actual_points_last_5 : ℚ := 0
  xp_last_5 : ℚ := 0
  status : String := "a"
deriving DecidableEq

/-- `xp_by_gw.get(gw, 0.0)`: the projected score of a player for one
gameweek, defaulting to 0 (as in `advisor.assign_player_tags`, line 101). -/
def xpAt (p : SPlayer) (gw : ℤ) : ℚ :=
  ((p.xp_by_gw.lookup gw).getD 0)

/-- Modelled from the spec: the horizon-weighted projected score of spec
section 4.1 — the sum over future periods `t = 1..H` of the period-`t`
projection discounted by `γ ^ t`, relative to the reference gameweek `gw`
(spec section 3, "reference gameweek/period index used to align
multi-period projections"). -/
def decayedScore (p : SPlayer) (gw : ℤ) (H : ℕ) (γ : ℚ) : ℚ :=
  ∑ t ∈ Finset.Icc 1 H, xpAt p (gw + (t : ℤ)) * γ ^ t

/-- Modelled from the spec: the objective the missing Model Builder
produces (spec section 4.1), built the way `solve_fpl_problem` builds its
single-period objective (lines 202-218) but with each player's scalar `xP`
replaced by its horizon-decayed score: full weight on the starter
indicator, `BENCH_WEIGHT` on squad-minus-starter, an extra full weight on
the captain indicator, minus the per-hit penalty times the hit count. -/
def specObjective (pool : List SPlayer) (gw : ℤ) (H : ℕ) (γ : ℚ)
    (hitPenalty : ℚ) (a : Asg) : ℚ :=
  (pool.map fun p =>
      decayedScore p gw H γ * bq (a.starter p.id)
      + decayedScore p gw H γ * BENCH_WEIGHT * (bq (a.squad p.id) - bq (a.starter p.id))
      + decayedScore p gw H γ * bq (a.captain p.id)).sum
  - hitPenalty * (a.hits : ℚ)

/-- Modelled from the spec: the disqualifying availability statuses of
spec sections 3 and 4.1 (injured / unavailable / suspended / not-in-squad),
as the provider's status codes used in `data_ingestion.py`. -/
def DISQUALIFYING_STATUSES : List String := ["i", "u", "s", "n"]

/-- Whether a player may be bought in (spec section 4.1, rule 9). -/
def specEligible (p : SPlayer) : Bool :=
  !(DISQUALIFYING_STATUSES.contains p.status)

/-- The transfer-in list extracted from a solved assignment over the spec
model's pool: non-owned players whose transfer-in variable reads true. -/
def specTransfersIn (pool : List SPlayer) (owned : List ℤ) (a : Asg) : List SPlayer :=
  pool.filter fun p => !decide (p.id ∈ owned) && a.tin p.id

/-- Modelled from the spec: eligibility constraint of spec section 4.1
rule 9 — every non-owned player with a disqualifying availability status
has its transfer-in variable forced to zero. -/
def specEligibilityConstraint (pool : List SPlayer) (owned : List ℤ) (a : Asg) : Prop :=
  ∀ p ∈ pool, p.id ∉ owned → specEligible p = false → a.tin p.id = false

instance (pool : List SPlayer) (owned : List ℤ) (a : Asg) :
    Decidable (specEligibilityConstraint pool owned a) := by
  unfold specEligibilityConstraint
  infer_instance

/-- The total buy cost of incoming players in the spec model. -/
def specBuyCost (pool : List SPlayer) (owned : List ℤ) (a : Asg) : ℚ :=
  ((pool.filter fun p => !decide (p.id ∈ owned)).map
    fun p => p.now_cost * bq (a.tin p.id)).sum

/-- The total resale value of outgoing players in the spec model. -/
def specSellRevenue (pool : List SPlayer) (owned : List ℤ) (a : Asg) : ℚ :=
  ((pool.filter fun p => decide (p.id ∈ owned)).map
    fun p => p.selling_price * bq (a.tout p.id)).sum

/-- Modelled from the spec: the budget constraint of spec section 4.1
rule 8 — buy cost at most remaining bank plus resale revenue plus a
non-negative tolerance `eps` on the right-hand side. -/
def specBudgetOk (pool : List SPlayer) (owned : List ℤ) (bank eps : ℚ) (a : Asg) : Prop :=
  specBuyCost pool owned a ≤ bank + specSellRevenue pool owned a + eps

/-- Python's `max(iterable, key=score)` over spec-model players: the first
element attaining the maximal score; `none` on an empty list. -/
def pickMax (score : SPlayer → ℚ) : List SPlayer → Option SPlayer
  | [] => none
  | x :: xs => some (xs.foldl (fun best p => if score best < score p then p else best) x)

/-- Modelled from the spec: vice-captain selection of spec section 3 — the
lineup member with the second-highest projected score among the starters,
i.e. the best-scoring member of the lineup with its captain removed
(`OptimizationResult.vice_captain_id`, consumed by
`advisor.generate_full_report`). -/
def viceCaptainOf (score : SPlayer → ℚ) (lineup : List SPlayer) : Option SPlayer :=
  match pickMax score lineup with
  | none => none
  | some c => pickMax score (lineup.erase c)

/-- Splitting a count over a boolean predicate `q` by a second predicate. -/
lemma countP_and_split (l : List Player) (p q : Player → Bool) :
    l.countP (fun x => p x && q x) + l.countP (fun x => !p x && q x) = l.countP q := by
  induction l with
  | nil => simp
  | cons x xs ih =>
    cases hp : p x <;> cases hq : q x <;>
      simp [List.countP_cons, hp, hq] <;> omega

lemma mem_startersOf (ps : List Player) (a : Asg) (p : Player) :
    p ∈ startersOf ps a ↔ p ∈ ps ∧ a.starter p.id = true := by
  simp [startersOf, List.mem_filter]

/-- Inverting a successful extraction into the captain that was found and
the literal result record. -/
lemma extractResult_eq_some {ps : List Player} {u : UserState} {a : Asg}
    {st : String} {r : SolverResult}
    (h : extractResult ps u a st = some r) :
    ∃ cap, capOf ps a = some cap ∧ r = buildResult ps u a cap st := by
  unfold extractResult at h
  cases hc : capOf ps a with
  | none => rw [hc] at h; exact absurd h (by simp)
  | some c =>
    rw [hc] at h
    exact ⟨c, rfl, (Option.some_inj.mp h).symm⟩

lemma decide_mem_startersOf (ps : List Player) (a : Asg) (p : Player) (hp : p ∈ ps) :
    decide (p ∈ startersOf ps a) = a.starter p.id := by
  cases hb : a.starter p.id with
  | false => simp [mem_startersOf, hb]
  | true => simp [mem_startersOf, hp, hb]

/-- C5: a result extracted from an assignment satisfying the built
constraints has a 15-player squad, an 11-player starters list contained in
the squad, and a bench that is the squad minus the starters, of size 4. -/
theorem extracted_result_squad_lineup_bench_invariants
    (ps : List Player) (u : UserState) (m : ℕ) (a : Asg) (st : String)
    (r : SolverResult)
    (hf : feasible ps u m a) (hr : extractResult ps u a st = some r) :
    r.new_squad.length = 15 ∧ r.starters.length = 11 ∧
    (∀ p ∈ r.starters, p ∈ r.new_squad) ∧
    r.bench = r.new_squad.filter (fun p => !decide (p ∈ r.starters)) ∧
    r.bench.length = 4 := by
  obtain ⟨cap, -, rfl⟩ := extractResult_eq_some hr
  obtain ⟨h1, -, -, h4, h5, -⟩ := hf
  have hsq : (squadOf ps a).length = 15 := by
    rw [squadOf, ← List.countP_eq_length_filter]
    exact h1
  have hst : (startersOf ps a).length = 11 := by
    rw [startersOf, ← List.countP_eq_length_filter]
    exact h4
  refine ⟨hsq, hst, ?_, rfl, ?_⟩
  · intro p hp
    have hp2 : p ∈ startersOf ps a := hp
    rw [mem_startersOf] at hp2
    show p ∈ squadOf ps a
    rw [squadOf, List.mem_filter]
    exact ⟨hp2.1, h5 p hp2.1 hp2.2⟩
  · have hb : (benchOf ps a).length
        = ps.countP fun p => !a.starter p.id && a.squad p.id := by
      rw [benchOf, ← List.countP_eq_length_filter, squadOf, List.countP_filter]
      apply List.countP_congr
      intro p hp
      rw [decide_mem_startersOf ps a p hp]
    have hss : (ps.countP fun p => a.starter p.id && a.squad p.id)
        = ps.countP fun p => a.starter p.id := by
      apply List.countP_congr
      intro p hp
      cases hb2 : a.starter p.id with
      | false => simp [hb2]
      | true => simp [hb2, h5 p hp hb2]
    have hsplit := countP_and_split ps (fun p => a.starter p.id) (fun p => a.squad p.id)
    rw [hss, h4, h1] at hsplit
    rw [show (buildResult ps u a cap st).bench = benchOf ps a from rfl, hb]
    have : STARTING_XI + (ps.countP fun p => !a.starter p.id && a.squad p.id)
        = SQUAD_SIZE := hsplit
    rw [STARTING_XI, SQUAD_SIZE] at this
    omega

/-- C6: the reported hit cost is the per-hit penalty times
`max 0 (|transfers out| - free transfers)` computed from the extracted
transfer-out list, and is never negative. -/
theorem extracted_result_hit_cost_formula
    (ps : List Player) (u : UserState) (a : Asg) (st : String)
    (r : SolverResult) (hr : extractResult ps u a st = some r) :
    r.hit_cost
      = HIT_COST * ((max 0 ((r.transfers_out.length : ℤ) - u.free_transfers) : ℤ) : ℚ)
    ∧ 0 ≤ r.hit_cost := by
  obtain ⟨cap, -, rfl⟩ := extractResult_eq_some hr
  constructor
  · exact mul_comm ((numHitsOf ps u a : ℤ) : ℚ) HIT_COST
  · show (0 : ℚ) ≤ hitCostOf ps u a
    rw [hitCostOf]
    apply mul_nonneg
    · exact_mod_cast le_max_left 0 (((toutOf ps u a).length : ℤ) - u.free_transfers)
    · norm_num [HIT_COST]

/-- C7: the should-roll flag is true exactly when the computed net
improvement is strictly below the inertia threshold and at least one
transfer was proposed; in particular it is true at net improvement 1 with
a transfer, and false with zero transfers. -/
theorem extracted_result_should_roll_iff
    (ps : List Player) (u : UserState) (a : Asg) (st : String)
    (r : SolverResult) (hr : extractResult ps u a st = some r) :
    (r.should_roll = true ↔
      (netImprovementOf ps u a r.captain < INERTIA_THRESHOLD ∧ r.transfers_out ≠ []))
    ∧ (r.transfers_out = [] → r.should_roll = false)
    ∧ (netImprovementOf ps u a r.captain = 1 → r.transfers_out ≠ [] →
        r.should_roll = true) := by
  obtain ⟨cap, -, rfl⟩ := extractResult_eq_some hr
  have hiff : (buildResult ps u a cap st).should_roll = true ↔
      (netImprovementOf ps u a cap < INERTIA_THRESHOLD ∧ toutOf ps u a ≠ []) := by
    show shouldRollOf ps u a cap = true ↔ _
    rw [shouldRollOf, Bool.and_eq_true, decide_eq_true_iff, decide_eq_true_iff,
      List.length_pos]
  refine ⟨hiff, ?_, ?_⟩
  · intro hout
    cases hb : (buildResult ps u a cap st).should_roll with
    | false => rfl
    | true =>
      have hout2 : toutOf ps u a = [] := hout
      exact absurd hout2 (hiff.mp hb).2
  · intro hnet hout
    refine hiff.mpr ⟨?_, hout⟩
    rw [show (buildResult ps u a cap st).captain = cap from rfl] at hnet
    rw [hnet, INERTIA_THRESHOLD]
    norm_num

/-- C10: if no captain variable reads true but some starter does, the
extraction does not fail and returns the first extracted starter (in
input-pool order) as captain. -/
theorem captain_defaults_to_first_starter
    (ps : List Player) (u : UserState) (a : Asg) (st : String)
    (hcap : ∀ p ∈ ps, a.captain p.id = false)
    (hst : startersOf ps a ≠ []) :
    ∃ r, extractResult ps u a st = some r
      ∧ some r.captain = (startersOf ps a).head? := by
  have hcl : capListOf ps a = [] := by
    rw [capListOf]
    apply List.filter_eq_nil_iff.mpr
    intro p hp
    simp [hcap p hp]
  cases hs : startersOf ps a with
  | nil => exact absurd hs hst
  | cons s0 rest =>
    have hcapof : capOf ps a = some s0 := by
      rw [capOf, hs, hcl]
      rfl
    refine ⟨buildResult ps u a s0 st, ?_, ?_⟩
    · rw [extractResult, hcapof]
    · rfl

/-- C1: with the mock pool and user state, when the solver assigns no
variable values (as on an infeasible model) the extraction fails — the
`starters[0]` default at line 309 indexes an empty list — instead of
returning the baseline unchanged squad with empty transfer lists. -/
theorem infeasible_extraction_fails_not_baseline :
    extractResult mockPlayers mockUser unsetAsg statusInfeasible = none := by
  rfl

/-- Raising the transfer cap only relaxes the constraint set: the cap
appears in the single `max_transfers` constraint (line 286). -/
lemma feasible_mono (ps : List Player) (u : UserState) {m mh : ℕ} (a : Asg)
    (hm : m ≤ mh) (hf : feasible ps u m a) : feasible ps u mh a := by
  obtain ⟨h1, h2, h3, h4, h5, h6, h7, h8, h9, h10, h11, h12, h13, h14, h15, h16⟩ := hf
  exact ⟨h1, h2, h3, h4, h5, h6, h7, h8, h9, h10, h11, h12, h13, h14,
    le_trans h15 hm, h16⟩

/-- C8: the optimal objective value of the built model is monotone in the
`max_transfers` cap — any optimum under a smaller cap is at most the
optimum under a larger cap, for the same pool and user state. -/
theorem optimal_value_monotone_in_transfer_cap
    (ps : List Player) (u : UserState) {m mh : ℕ} {v vh : ℚ}
    (hm : m ≤ mh)
    (hv : IsOptimalValue ps u m v) (hvh : IsOptimalValue ps u mh vh) :
    v ≤ vh := by
  obtain ⟨⟨a, hfa, hva⟩, -⟩ := hv
  obtain ⟨-, hub⟩ := hvh
  exact hva ▸ hub a (feasible_mono ps u a hm hfa)

/-- A 15-player pool with all projections zero, used to exhibit concrete
optimal values of the built model: the squad-size constraint forces every
pool member into the squad, and the objective degenerates to the hit
penalty alone. -/
def zeroPool : List Player :=
  [ ⟨1, "g1", "T1", "GK", 4, 4, 0, 0, true, true⟩
  , ⟨2, "g2", "T2", "GK", 4, 4, 0, 0, true, false⟩
  , ⟨3, "d1", "T3", "DEF", 4, 4, 0, 0, true, true⟩
  , ⟨4, "d2", "T4", "DEF", 4, 4, 0, 0, true, true⟩
  , ⟨5, "d3", "T5", "DEF", 4, 4, 0, 0, true, true⟩
  , ⟨6, "d4", "T6", "DEF", 4, 4, 0, 0, true, true⟩
  , ⟨7, "d5", "T7", "DEF", 4, 4, 0, 0, true, false⟩
  , ⟨8, "m1", "T8", "MID", 4, 4, 0, 0, true, true⟩
  , ⟨9, "m2", "T9", "MID", 4, 4, 0, 0, true, true⟩
  , ⟨10, "m3", "TA", "MID", 4, 4, 0, 0, true, true⟩
  , ⟨11, "m4", "TB", "MID", 4, 4, 0, 0, true, true⟩
  , ⟨12, "m5", "TC", "MID", 4, 4, 0, 0, true, false⟩
  , ⟨13, "f1", "TD", "FWD", 4, 4, 0, 0, true, true⟩
  , ⟨14, "f2", "TE", "FWD", 4, 4, 0, 0, true, true⟩
  , ⟨15, "f3", "TF", "FWD", 4, 4, 0, 0, true, false⟩ ]

/-- User state owning the whole zero pool. -/
def zeroUser : UserState :=
  { bank := 0
  , free_transfers := 1
  , current_squad_ids := [1, 2, 3, 4, 5, 6, 7, 8, 9, 10, 11, 12, 13, 14, 15] }

/-- Keep the whole zero pool, start a legal formation, no transfers. -/
def zeroAsg : Asg :=
  { squad := fun _ => true
  , starter := fun i => decide (i ∈ ([1, 3, 4, 5, 6, 8, 9, 10, 11, 13, 14] : List ℤ))
  , captain := fun i => i == 1
  , tout := fun _ => false
  , tin := fun _ => false
  , hits := 0 }

/-- With every projection zero, the objective is the hit penalty alone. -/
lemma zeroPool_objective (a : Asg) : objective zeroPool a = -(HIT_COST * (a.hits : ℚ)) := by
  simp [objective, zeroPool]

lemma zeroPool_objective_nonpos (a : Asg) : objective zeroPool a ≤ 0 := by
  rw [zeroPool_objective]
  rw [HIT_COST]
  have : (0 : ℚ) ≤ 4 * (a.hits : ℚ) := by positivity
  linarith

lemma zeroPool_feasible_base : feasible zeroPool zeroUser 0 zeroAsg := by
  refine ⟨by decide, by decide, by decide, by decide, by decide, by decide, by decide,
    by decide, by decide, by decide, by decide, by decide, by decide, by decide,
    by decide, ?_⟩
  norm_num [buyingCostOf, sellingRevenueOf, zeroPool, zeroUser, zeroAsg, bq]

lemma zeroPool_feasible (m : ℕ) : feasible zeroPool zeroUser m zeroAsg :=
  feasible_mono zeroPool zeroUser zeroAsg (Nat.zero_le m) zeroPool_feasible_base

/-- Under every transfer cap, the zero pool's optimal objective value is 0. -/
lemma zeroPool_isOptimal (m : ℕ) : IsOptimalValue zeroPool zeroUser m 0 := by
  refine ⟨⟨zeroAsg, zeroPool_feasible m, ?_⟩, fun a _ => zeroPool_objective_nonpos a⟩
  rw [zeroPool_objective]
  norm_num [zeroAsg]

/-- C3: the spec model's objective weights every candidate player by its
horizon-decayed projected score (the sum over future periods `t = 1..H` of
the period projection times `γ ^ t`), at full weight on the starter
indicator, at the bench-discount weight on squad-minus-starter, with one
additional full weight on the captain indicator, minus the per-hit penalty
times the hit count. -/
theorem spec_objective_is_decay_weighted
    (pool : List SPlayer) (gw : ℤ) (H : ℕ) (γ : ℚ) (hitPenalty : ℚ) (a : Asg) :
    specObjective pool gw H γ hitPenalty a =
      (pool.map fun p =>
        (∑ t ∈ Finset.Icc 1 H, xpAt p (gw + (t : ℤ)) * γ ^ t) *
          (bq (a.starter p.id)
            + BENCH_WEIGHT * (bq (a.squad p.id) - bq (a.starter p.id))
            + bq (a.captain p.id))).sum
      - hitPenalty * (a.hits : ℚ) := by
  rw [specObjective]
  have hfg : (fun p : SPlayer =>
      decayedScore p gw H γ * bq (a.starter p.id)
      + decayedScore p gw H γ * BENCH_WEIGHT * (bq (a.squad p.id) - bq (a.starter p.id))
      + decayedScore p gw H γ * bq (a.captain p.id))
      = (fun p : SPlayer =>
        (∑ t ∈ Finset.Icc 1 H, xpAt p (gw + (t : ℤ)) * γ ^ t) *
          (bq (a.starter p.id)
            + BENCH_WEIGHT * (bq (a.squad p.id) - bq (a.starter p.id))
            + bq (a.captain p.id))) := by
    funext p
    rw [decayedScore]
    ring
  rw [hfg]

/-- C2: under the spec model's eligibility constraint, a non-owned player
with a disqualifying availability status never appears in the transfer-in
list extracted from any assignment satisfying the constraints, regardless
of its projected score. -/
theorem disqualified_player_never_in_transfers_in
    (pool : List SPlayer) (owned : List ℤ) (a : Asg) (p : SPlayer)
    (hc : specEligibilityConstraint pool owned a) (hp : p ∈ pool)
    (hdq : specEligible p = false) (hown : p.id ∉ owned) :
    p ∉ specTransfersIn pool owned a := by
  intro hmem
  rw [specTransfersIn, List.mem_filter] at hmem
  have htin := hc p hp hown hdq
  rw [htin] at hmem
  simp at hmem

/-- C4: the spec model's budget constraint states that the buy cost of
incoming players is at most the remaining bank plus the resale value of
outgoing players plus the non-negative tolerance on the right-hand side,
and consequently a plan whose revenue exactly balances its cost always
satisfies it. -/
theorem budget_constraint_tolerates_exact_balance
    (pool : List SPlayer) (owned : List ℤ) (bank eps : ℚ) (a : Asg)
    (heps : 0 ≤ eps) :
    (specBudgetOk pool owned bank eps a ↔
      specBuyCost pool owned a ≤ bank + specSellRevenue pool owned a + eps)
    ∧ (specBuyCost pool owned a = bank + specSellRevenue pool owned a →
        specBudgetOk pool owned bank eps a) := by
  refine ⟨Iff.rfl, fun h => ?_⟩
  rw [specBudgetOk, h]
  linarith

lemma pickMax_go_mem (score : SPlayer → ℚ) (x : SPlayer) (xs : List SPlayer) :
    xs.foldl (fun best p => if score best < score p then p else best) x ∈ x :: xs := by
  induction xs generalizing x with
  | nil => simp
  | cons y ys ih =>
    rw [List.foldl_cons]
    rcases List.mem_cons.mp (ih (if score x < score y then y else x)) with h | h
    · rw [h]
      split
      · exact List.mem_cons_of_mem x (List.mem_cons_self y ys)
      · exact List.mem_cons_self x (y :: ys)
    · exact List.mem_cons_of_mem x (List.mem_cons_of_mem y h)

lemma pickMax_go_ub (score : SPlayer → ℚ) (x : SPlayer) (xs : List SPlayer) :
    ∀ p ∈ x :: xs,
      score p ≤ score (xs.foldl (fun best q => if score best < score q then q else best) x) := by
  induction xs generalizing x with
  | nil =>
    intro p hp
    rw [List.mem_singleton] at hp
    rw [hp, List.foldl_nil]
  | cons y ys ih =>
    intro p hp
    rw [List.foldl_cons]
    have hxz : score x ≤ score (if score x < score y then y else x) := by
      split
      · exact le_of_lt (by assumption)
      · exact le_refl _
    have hyz : score y ≤ score (if score x < score y then y else x) := by
      split
      · exact le_refl _
      · exact le_of_not_lt (by assumption)
    have hzfold := ih (if score x < score y then y else x)
      (if score x < score y then y else x) (List.mem_cons_self _ ys)
    rcases List.mem_cons.mp hp with rfl | hp2
    · exact le_trans hxz hzfold
    · rcases List.mem_cons.mp hp2 with rfl | hp3
      · exact le_trans hyz hzfold
      · exact ih (if score x < score y then y else x) p (List.mem_cons_of_mem _ hp3)

lemma pickMax_spec (score : SPlayer → ℚ) (l : List SPlayer) (hl : l ≠ []) :
    ∃ c, pickMax score l = some c ∧ c ∈ l ∧ ∀ p ∈ l, score p ≤ score c := by
  cases l with
  | nil => exact absurd rfl hl
  | cons x xs =>
    exact ⟨_, rfl, pickMax_go_mem score x xs, pickMax_go_ub score x xs⟩

/-- C9: on any lineup with at least two members, the spec model's captain
and vice-captain both exist; the vice-captain is a lineup member whose
projected score is at most the captain's and at least that of every other
non-captain lineup member — the second-highest-projected lineup member. -/
theorem vice_captain_is_second_highest
    (score : SPlayer → ℚ) (lineup : List SPlayer) (h2 : 2 ≤ lineup.length) :
    ∃ c v, pickMax score lineup = some c ∧ viceCaptainOf score lineup = some v
      ∧ c ∈ lineup ∧ v ∈ lineup ∧ score v ≤ score c
      ∧ ∀ p ∈ lineup.erase c, score p ≤ score v := by
  have hne : lineup ≠ [] := by
    intro h
    rw [h] at h2
    exact absurd h2 (by decide)
  obtain ⟨c, hc, hcmem, hcub⟩ := pickMax_spec score lineup hne
  have herase : lineup.erase c ≠ [] := by
    have hlen := List.length_erase_of_mem hcmem
    intro h
    rw [h] at hlen
    simp at hlen
    omega
  obtain ⟨v, hv, hvmem, hvub⟩ := pickMax_spec score (lineup.erase c) herase
  refine ⟨c, v, hc, ?_, hcmem, List.mem_of_mem_erase hvmem, ?_, hvub⟩
  · rw [viceCaptainOf, hc]
    exact hv
  · exact hcub v (List.mem_of_mem_erase hvmem)

/-- A concrete solved assignment over the mock pool: sell Saliba (id 4),
buy Van Dijk (id 18), start a 1-4-4-2 formation, captain Haaland (id 13),
no hits. -/
def wAsg : Asg :=
  { squad := fun i => decide (i ∈ ([1, 2, 3, 5, 6, 7, 8, 9, 10, 11, 12, 13, 14, 15, 18] : List ℤ))
  , starter := fun i => decide (i ∈ ([1, 3, 5, 6, 8, 9, 10, 11, 13, 14, 18] : List ℤ))
  , captain := fun i => i == 13
  , tout := fun i => i == 4
  , tin := fun i => i == 18
  , hits := 0 }

lemma wAsg_feasible : feasible mockPlayers mockUser 4 wAsg := by
  refine ⟨by decide, by decide, by decide, by decide, by decide, by decide, by decide,
    by decide, by decide, by decide, by decide, by decide, by decide, by decide,
    by decide, ?_⟩
  norm_num [buyingCostOf, sellingRevenueOf, mockPlayers, mockUser, wAsg, bq]

theorem extracted_result_invariants_witness :
    feasible mockPlayers mockUser 4 wAsg ∧
    ∃ r, extractResult mockPlayers mockUser wAsg statusOptimal = some r ∧
      r.new_squad.length = 15 ∧ r.starters.length = 11 ∧
      (∀ p ∈ r.starters, p ∈ r.new_squad) ∧
      r.bench = r.new_squad.filter (fun p => !decide (p ∈ r.starters)) ∧
      r.bench.length = 4 := by
  refine ⟨wAsg_feasible, _, rfl, ?_⟩
  exact extracted_result_squad_lineup_bench_invariants mockPlayers mockUser 4 wAsg
    statusOptimal _ wAsg_feasible rfl

theorem extracted_result_hit_cost_witness :
    ∃ r, extractResult mockPlayers mockUser wAsg statusOptimal = some r ∧
      r.hit_cost
        = HIT_COST * ((max 0 ((r.transfers_out.length : ℤ) - mockUser.free_transfers) : ℤ) : ℚ)
      ∧ 0 ≤ r.hit_cost :=
  ⟨_, rfl, extracted_result_hit_cost_formula mockPlayers mockUser wAsg statusOptimal _ rfl⟩

theorem extracted_result_should_roll_witness :
    ∃ r, extractResult mockPlayers mockUser wAsg statusOptimal = some r ∧
      ((r.should_roll = true ↔
          (netImprovementOf mockPlayers mockUser wAsg r.captain < INERTIA_THRESHOLD
            ∧ r.transfers_out ≠ []))
        ∧ (r.transfers_out = [] → r.should_roll = false)
        ∧ (netImprovementOf mockPlayers mockUser wAsg r.captain = 1 →
            r.transfers_out ≠ [] → r.should_roll = true)) :=
  ⟨_, rfl, extracted_result_should_roll_iff mockPlayers mockUser wAsg statusOptimal _ rfl⟩

/-- The concrete assignment of `wAsg` with every captain variable unset. -/
def w10Asg : Asg := { wAsg with captain := fun _ => false }

theorem captain_defaults_witness :
    (∀ p ∈ mockPlayers, w10Asg.captain p.id = false)
    ∧ startersOf mockPlayers w10Asg ≠ []
    ∧ ∃ r, extractResult mockPlayers mockUser w10Asg statusOptimal = some r
        ∧ some r.captain = (startersOf mockPlayers w10Asg).head? :=
  ⟨by decide, by decide,
    captain_defaults_to_first_starter mockPlayers mockUser w10Asg statusOptimal
      (by decide) (by decide)⟩

theorem optimal_value_monotone_witness :
    (0 : ℕ) ≤ 1 ∧ IsOptimalValue zeroPool zeroUser 0 0
    ∧ IsOptimalValue zeroPool zeroUser 1 0 ∧ (0 : ℚ) ≤ 0 :=
  ⟨Nat.zero_le 1, zeroPool_isOptimal 0, zeroPool_isOptimal 1,
    optimal_value_monotone_in_transfer_cap zeroPool zeroUser (Nat.zero_le 1)
      (zeroPool_isOptimal 0) (zeroPool_isOptimal 1)⟩

/-- A non-owned, injured candidate with a far superior projected score. -/
def injuredStar : SPlayer :=
  { id := 1, web_name := "Star", team_id := 1, position := 4
  , now_cost := 90, selling_price := 90, xp_by_gw := [(2, 99)], status := "i" }

/-- A non-owned, available candidate with a modest projected score. -/
def availMid : SPlayer :=
  { id := 2, web_name := "Mid", team_id := 2, position := 4
  , now_cost := 50, selling_price := 50, xp_by_gw := [(2, 3)], status := "a" }

/-- An assignment buying only the available candidate. -/
def c2Asg : Asg :=
  { squad := fun i => i == 2
  , starter := fun i => i == 2
  , captain := fun i => i == 2
  , tout := fun _ => false
  , tin := fun i => i == 2
  , hits := 0 }

theorem disqualified_player_witness :
    specEligibilityConstraint [injuredStar, availMid] [] c2Asg
    ∧ injuredStar ∈ [injuredStar, availMid]
    ∧ specEligible injuredStar = false
    ∧ injuredStar.id ∉ ([] : List ℤ)
    ∧ injuredStar ∉ specTransfersIn [injuredStar, availMid] [] c2Asg :=
  ⟨by decide, List.mem_cons_self _ _, by decide, by decide,
    disqualified_player_never_in_transfers_in [injuredStar, availMid] [] c2Asg
      injuredStar (by decide) (List.mem_cons_self _ _) (by decide) (by decide)⟩

/-- An owned player sold for 5. -/
def sellerOut : SPlayer :=
  { id := 1, web_name := "Out", team_id := 1, position := 3
  , now_cost := 5, selling_price := 5 }

/-- A candidate bought for exactly bank plus resale value. -/
def buyerIn : SPlayer :=
  { id := 2, web_name := "In", team_id := 2, position := 3
  , now_cost := 13 / 2, selling_price := 13 / 2 }

/-- The swap selling `sellerOut` and buying `buyerIn`. -/
def c4Asg : Asg :=
  { squad := fun i => i == 2
  , starter := fun i => i == 2
  , captain := fun i => i == 2
  , tout := fun i => i == 1
  , tin := fun i => i == 2
  , hits := 0 }

theorem budget_tolerance_witness :
    (0 : ℚ) ≤ 1 / 10
    ∧ specBuyCost [sellerOut, buyerIn] [1] c4Asg
        = (3 / 2 : ℚ) + specSellRevenue [sellerOut, buyerIn] [1] c4Asg
    ∧ specBudgetOk [sellerOut, buyerIn] [1] (3 / 2) (1 / 10) c4Asg := by
  have hbal : specBuyCost [sellerOut, buyerIn] [1] c4Asg
      = (3 / 2 : ℚ) + specSellRevenue [sellerOut, buyerIn] [1] c4Asg := by
    norm_num [specBuyCost, specSellRevenue, sellerOut, buyerIn, c4Asg, bq]
  exact ⟨by norm_num, hbal,
    (budget_constraint_tolerates_exact_balance [sellerOut, buyerIn] [1] (3 / 2) (1 / 10)
      c4Asg (by norm_num)).2 hbal⟩

/-- Three lineup members with distinct projection profiles. -/
def wingA : SPlayer :=
  { id := 1, web_name := "A", team_id := 1, position := 3
  , now_cost := 80, selling_price := 80, xp_by_gw := [(11, 6), (12, 5)] }

def wingB : SPlayer :=
  { id := 2, web_name := "B", team_id := 2, position := 3
  , now_cost := 70, selling_price := 70, xp_by_gw := [(11, 4), (12, 4)] }

def wingC : SPlayer :=
  { id := 3, web_name := "C", team_id := 3, position := 3
  , now_cost := 50, selling_price := 50, xp_by_gw := [(11, 2), (12, 1)] }

theorem vice_captain_witness :
    2 ≤ ([wingA, wingB, wingC] : List SPlayer).length
    ∧ ∃ c v,
        pickMax (fun p => decayedScore p 10 3 (9 / 10)) [wingA, wingB, wingC] = some c
        ∧ viceCaptainOf (fun p => decayedScore p 10 3 (9 / 10)) [wingA, wingB, wingC] = some v
        ∧ c ∈ [wingA, wingB, wingC] ∧ v ∈ [wingA, wingB, wingC]
        ∧ (fun p => decayedScore p 10 3 (9 / 10)) v ≤ (fun p => decayedScore p 10 3 (9 / 10)) c
        ∧ ∀ p ∈ ([wingA, wingB, wingC] : List SPlayer).erase c,
            (fun p => decayedScore p 10 3 (9 / 10)) p ≤ (fun p => decayedScore p 10 3 (9 / 10)) v :=
  ⟨by decide,
    vice_captain_is_second_highest (fun p => decayedScore p 10 3 (9 / 10))
      [wingA, wingB, wingC] (by decide)⟩
